import Mathlib

/-!
# Shallow embedding of `src/streamlit_app.py` (Content Validator v0.1)

The program wires a two-node LangGraph loop over a `State` TypedDict:
an `agent` node (`agent_node`) that sends the article to a remote
text-generation service, an `action` node (`action_node`) that sends the
latest generated text to a remote web-search service, and a router
(`should_continue`) that picks between continuing to `action` and ending.

Remote services are modelled as oracle functions passed in as parameters.
The generation oracle is indexed by the invocation count, so successive
Analyzer calls may receive different replies even though the request built
from the state is the same.

A key point of the embedding: the graph `State` is a plain TypedDict whose
keys carry no `Annotated` reducer, so every key is a LangGraph last-value
channel.  A value returned by a node REPLACES the previous channel content;
it is not appended.  `applyUpdate` models exactly this.
-/

namespace ContentValidator

/-- Conversation messages (the langchain message classes used by the app:
`HumanMessage`, `AIMessage`, `FunctionMessage`). -/
inductive Message where
  | human (content : String)
  | ai (content : String)
  | function (content : String) (name : String)
deriving DecidableEq

/-- The `.content` attribute of a message. -/
def Message.content : Message → String
  | .human c => c
  | .ai c => c
  | .function c _ => c

/-- Whether a message is a tool result (a `FunctionMessage`). -/
def Message.isToolResult : Message → Bool
  | .function _ _ => true
  | _ => false

/-- `class State(TypedDict): messages: List[...]; article: str`. -/
structure State where
  messages : List Message
  article : String
deriving DecidableEq

/-- Python `str.lower()`.  On the ASCII texts this program compares it
agrees with `Char.toLower` applied characterwise. -/
def pyLower (s : String) : String := String.mk (s.data.map Char.toLower)

/-- Substring search on character lists, used to model Python `sub in s`. -/
def containsAux (needle : List Char) : List Char → Bool
  | [] => needle.isEmpty
  | c :: rest => needle.isPrefixOf (c :: rest) || containsAux needle rest

/-- Python `sub in s` on strings. -/
def pyContains (s sub : String) : Bool := containsAux sub.toList s.toList

/-- One block of an Anthropic messages-API response: either a text block
(carrying a `text` attribute) or some other block without one. -/
inductive ContentBlock where
  | textBlock (text : String)
  | other
deriving DecidableEq

/-- The shape of `anthropic_client.messages.create(...)`:
an object with a `content` list of blocks.  A `none` value models a falsy
response object. -/
structure MessagesResponse where
  content : List ContentBlock
deriving DecidableEq

/-- Lines 72-75 of the source: when
`response and response.content and hasattr(response.content[0], ...)`
holds (the attribute probed being `text`), take `response.content[0].text`,
else the fixed placeholder. -/
def extractText (response : Option MessagesResponse) : String :=
  match response with
  | none => "No valid response received."
  | some r =>
    match r.content with
    | [] => "No valid response received."
    | block :: _ =>
      match block with
      | .textBlock t => t
      | .other => "No valid response received."

/-- Whether the truthiness chain of line 72 succeeds. -/
def hasValidText (response : Option MessagesResponse) : Bool :=
  match response with
  | none => false
  | some r =>
    match r.content with
    | .textBlock _ :: _ => true
    | _ => false

/-- The request `agent_node` issues to the text-generation service:
model name, max_tokens, system string, and role-tagged messages. -/
structure GenRequest where
  model : String
  max_tokens : Nat
  system : String
  messages : List (String × String)
deriving DecidableEq

/-- The `system_prompt` string literal of `agent_node`. -/
def system_prompt : String :=
  "\n    You are an expert and diligent content editor with years of experience at leading news outlets.\n    You inspect every article that you review carefully and diligently, one paragraph at a time, and then as a whole.\n    You take your time to think through an article step by step before suggesting a correction. \n    You have infinite patience and considerable attention to detail. No mistake gets past you.\n    "

/-- The `prompt` f-string of `agent_node`, with the article embedded
verbatim between the `<article>` tags. -/
def prompt (article : String) : String :=
  "\n    You are currently working at Singsaver, a financial product aggregator in Singapore.\n    Articles you write may have product placements such as credit cards, bank accounts, loan products, etc.\n    A new writer in your team submitted an article to review, and you heard from colleagues that the new writer tends to get the product details wrong.\n    Sometimes the new writer writes the wrong interest details, or the wrong miles, or even the an old card name - you caught them previously mentioning a product that was discontinued last year.\n    Review their new article below (marked by the <article></article> xml tags) diligently, taking care to go through your review process three times at least: \n    1. Extract all the products mentioned in the article\n    2. List out to yourself all the details about those products one by one\n    3. Browse the internet to validate every detail about those products mentioned in the article\n    4. If the product is relevant and up to date move on. If there is a mistake, however, highlight it and return a short description of the correct product details\n    5. Review the article again, this time validating there are no mentions of Singsaver\x27s competitors, such as MoneySmart\n\n    <article>\n    " ++ article ++ "\n    </article>\n    \n    "

/-- The call `anthropic_client.messages.create(model=..., max_tokens=8192,
system=system_prompt, messages=[...])` built by `agent_node`.  It reads
only `state[\x27article\x27]`. -/
def buildRequest (article : String) : GenRequest :=
  { model := "claude-3-5-sonnet-20240620"
    max_tokens := 8192
    system := system_prompt
    messages := [("user", prompt article)] }

/-- A partial state update returned by a graph node: for each TypedDict
key, `some v` when the returned dict contains the key and `none` when it
does not. -/
structure Update where
  messages : Option (List Message)
  article : Option String

/-- LangGraph channel application.  `State` declares its keys without an
`Annotated` reducer, so each key is a last-value channel: a returned value
replaces the channel content outright. -/
def applyUpdate (state : State) (u : Update) : State :=
  { messages := u.messages.getD state.messages
    article := u.article.getD state.article }

/-- `agent_node`: builds the request from the article alone, calls the
generation service, and returns `{"messages": [AIMessage(text)]}`. -/
def agent_node (gen : GenRequest → Option MessagesResponse) (state : State) :
    Update :=
  let response := gen (buildRequest state.article)
  { messages := some [Message.ai (extractText response)], article := none }

/-- `action_node`: takes `messages[-1].content` as the query, calls the
search service, and returns
`{"messages": [FunctionMessage(content=str(result), name="TavilySearch")]}`.
The search oracle already yields the serialized `str(result)` text.
Python raises IndexError on an empty `messages`; that is the `none` case. -/
def action_node (search : String → String) (state : State) : Option Update :=
  match state.messages.getLast? with
  | none => none
  | some m =>
    some { messages := some [Message.function (search m.content) "TavilySearch"]
           article := none }

/-- `should_continue`: routes on `messages[-1]`; returns `"continue"` when
the last message is an `AIMessage` whose lowercased content contains the
substring `"search"`, else `"end"`.  Python raises IndexError on an empty
`messages`; that is the `none` case. -/
def should_continue (state : State) : Option String :=
  match state.messages.getLast? with
  | none => none
  | some last_message =>
    match last_message with
    | .ai c => if pyContains (pyLower c) "search" then some "continue" else some "end"
    | _ => some "end"

/-- One `agent` superstep: run `agent_node` and apply its update to the
state.  `k` is the index of this Analyzer invocation, used to address the
call-indexed generation oracle. -/
def agentStep (gen : Nat → GenRequest → Option MessagesResponse) (k : Nat)
    (state : State) : State :=
  applyUpdate state (agent_node (gen k) state)

/-- One `action` superstep: run `action_node` and apply its update. -/
def actionStep (search : String → String) (state : State) : Option State :=
  (action_node search state).map (applyUpdate state)

/-- Outcome of driving the compiled graph with a given amount of fuel:
either the run reached `END` (with the final state, the number of Analyzer
invocations made, and the list of queries sent to the search service, in
order), or the fuel ran out mid-loop, or an unhandled Python exception
(IndexError on an empty message list) occurred. -/
inductive RunResult where
  | done (final : State) (agentCalls : Nat) (queries : List String)
  | outOfFuel (agentCalls : Nat) (queries : List String)
  | crashed
deriving DecidableEq

/-- The loop driver compiled from the graph: entry point `agent`, then
`should_continue` picks `action` (edge back to `agent`) or `END`.
`k` counts Analyzer invocations made so far; `qs` accumulates search
queries. -/
def runAux (gen : Nat → GenRequest → Option MessagesResponse)
    (search : String → String) :
    Nat → Nat → State → List String → RunResult
  | 0, k, _, qs => .outOfFuel k qs
  | fuel + 1, k, state, qs =>
    let s1 := agentStep gen k state
    match should_continue s1 with
    | none => .crashed
    | some route =>
      if route = "continue" then
        match s1.messages.getLast?, actionStep search s1 with
        | some lastMsg, some s2 =>
          runAux gen search fuel (k + 1) s2 (qs ++ [lastMsg.content])
        | _, _ => .crashed
      else .done s1 (k + 1) qs

/-- `app.invoke({"messages": [], "article": article})`. -/
def runApp (gen : Nat → GenRequest → Option MessagesResponse)
    (search : String → String) (fuel : Nat) (article : String) : RunResult :=
  runAux gen search fuel 0 { messages := [], article := article } []

/-- Number of Analyzer invocations a (possibly unfinished) run performed. -/
def agentCallsOf : RunResult → Nat
  | .done _ k _ => k
  | .outOfFuel k _ => k
  | .crashed => 0

/-- Whether the run reached `END` normally. -/
def isDone : RunResult → Bool
  | .done _ _ _ => true
  | _ => false

/-- The text the k-th Analyzer invocation extracts from the generation
oracle when the state carries this article. -/
def responseText (gen : Nat → GenRequest → Option MessagesResponse)
    (article : String) (k : Nat) : String :=
  extractText (gen k (buildRequest article))

/-- No two consecutive tool results appear in the list. -/
def noConsecToolResults : List Message → Bool
  | m1 :: m2 :: rest =>
    !(m1.isToolResult && m2.isToolResult) && noConsecToolResults (m2 :: rest)
  | _ => true

/-- The two Streamlit secrets read at startup. -/
structure Secrets where
  tavily_api_key : String
  claude_api_key : String
deriving DecidableEq

/-- The service clients constructed after the credential check. -/
structure AppClients where
  claudeKey : String
  tavilyKey : String
deriving DecidableEq

/-- Lines 16-31 of the source: read the two secrets and halt via
`st.stop()` when either is falsy (for `str`, falsy means empty); only when
both are non-empty are the Anthropic and Tavily clients constructed. -/
def startup (secrets : Secrets) : Option AppClients :=
  if secrets.tavily_api_key == "" || secrets.claude_api_key == "" then none
  else some { claudeKey := secrets.claude_api_key
              tavilyKey := secrets.tavily_api_key }

/-- A whole process interaction: startup, then (only when startup did not
halt) one run of the compiled graph.  `none` means the process stopped
before any remote service could be called. -/
def processRun (secrets : Secrets)
    (gen : Nat → GenRequest → Option MessagesResponse)
    (search : String → String) (fuel : Nat) (article : String) :
    Option RunResult :=
  (startup secrets).map (fun _ => runApp gen search fuel article)

/-! ## Basic unfolding lemmas about the two supersteps and the router -/

lemma agentStep_eq (gen : Nat → GenRequest → Option MessagesResponse)
    (k : Nat) (state : State) :
    agentStep gen k state =
      { messages := [Message.ai (responseText gen state.article k)]
        article := state.article } := rfl

lemma should_continue_single_ai (t a : String) :
    should_continue { messages := [Message.ai t], article := a } =
      (if pyContains (pyLower t) "search" then some "continue" else some "end") := rfl

lemma actionStep_single_ai (search : String → String) (t a : String) :
    actionStep search { messages := [Message.ai t], article := a } =
      some { messages := [Message.function (search t) "TavilySearch"]
             article := a } := rfl

/-- Unfolding the driver one round when the k-th response routes to
`action`: the state handed to the next round holds only the tool result
(last-value channel), and the generated text is logged as the query. -/
lemma runAux_continue (gen : Nat → GenRequest → Option MessagesResponse)
    (search : String → String) (fuel k : Nat) (state : State)
    (qs : List String)
    (h : pyContains (pyLower (responseText gen state.article k)) "search" = true) :
    runAux gen search (fuel + 1) k state qs =
      runAux gen search fuel (k + 1)
        { messages :=
            [Message.function (search (responseText gen state.article k)) "TavilySearch"]
          article := state.article }
        (qs ++ [responseText gen state.article k]) := by
  show (let s1 := agentStep gen k state
        match should_continue s1 with
        | none => RunResult.crashed
        | some route =>
          if route = "continue" then
            match s1.messages.getLast?, actionStep search s1 with
            | some lastMsg, some s2 =>
              runAux gen search fuel (k + 1) s2 (qs ++ [lastMsg.content])
            | _, _ => RunResult.crashed
          else RunResult.done s1 (k + 1) qs) = _
  simp only [agentStep_eq, should_continue_single_ai, actionStep_single_ai, h,
    if_true, List.getLast?_singleton]
  rfl

/-- Unfolding the driver one round when the k-th response routes to `END`:
the run finishes with the single generated message as the final state. -/
lemma runAux_end (gen : Nat → GenRequest → Option MessagesResponse)
    (search : String → String) (fuel k : Nat) (state : State)
    (qs : List String)
    (h : pyContains (pyLower (responseText gen state.article k)) "search" = false) :
    runAux gen search (fuel + 1) k state qs =
      .done { messages := [Message.ai (responseText gen state.article k)]
              article := state.article } (k + 1) qs := by
  show (let s1 := agentStep gen k state
        match should_continue s1 with
        | none => RunResult.crashed
        | some route =>
          if route = "continue" then
            match s1.messages.getLast?, actionStep search s1 with
            | some lastMsg, some s2 =>
              runAux gen search fuel (k + 1) s2 (qs ++ [lastMsg.content])
            | _, _ => RunResult.crashed
          else RunResult.done s1 (k + 1) qs) = _
  simp only [agentStep_eq, should_continue_single_ai, h, Bool.false_eq_true,
    if_false]
  rfl



/-- The queries logged by rounds `j, j+1, ..., j+k-1` when every one of
those rounds routes to `action`. -/
def queryTrace (gen : Nat → GenRequest → Option MessagesResponse)
    (article : String) (j k : Nat) : List String :=
  (List.range k).map (fun i => responseText gen article (j + i))

lemma queryTrace_succ (gen : Nat → GenRequest → Option MessagesResponse)
    (article : String) (j k : Nat) :
    queryTrace gen article j (k + 1) =
      responseText gen article j :: queryTrace gen article (j + 1) k := by
  simp only [queryTrace, List.range_succ_eq_map, List.map_map, Function.comp_def,
    List.map_cons, Nat.add_zero]
  refine congrArg _ (List.map_congr_left fun i _ => ?_)
  congr 1
  omega

/-- When rounds `j, ..., j+k-1` all produce text containing "search" and
round `j+k` does not, the driver finishes after exactly `k+1` more
Analyzer invocations, with the lone final generated message and the `k`
logged queries. -/
lemma runAux_first_stop (gen : Nat → GenRequest → Option MessagesResponse)
    (search : String → String) :
    ∀ (k j fuel : Nat) (state : State) (qs : List String),
      (∀ i, i < k →
        pyContains (pyLower (responseText gen state.article (j + i))) "search" = true) →
      pyContains (pyLower (responseText gen state.article (j + k))) "search" = false →
      k < fuel →
      runAux gen search fuel j state qs =
        .done { messages := [Message.ai (responseText gen state.article (j + k))]
                article := state.article }
          (j + k + 1)
          (qs ++ queryTrace gen state.article j k) := by
  intro k
  induction k with
  | zero =>
    intro j fuel state qs _ hstop hfuel
    obtain ⟨f, rfl⟩ : ∃ f, fuel = f + 1 := ⟨fuel - 1, by omega⟩
    rw [runAux_end gen search f j state qs (by simpa using hstop)]
    simp [queryTrace]
  | succ k ih =>
    intro j fuel state qs hall hstop hfuel
    obtain ⟨f, rfl⟩ : ∃ f, fuel = f + 1 := ⟨fuel - 1, by omega⟩
    rw [runAux_continue gen search f j state qs (by simpa using hall 0 (by omega))]
    rw [ih (j + 1) f _ _
      (fun i hi => by
        have h2 := hall (i + 1) (by omega)
        have h3 : j + (i + 1) = j + 1 + i := by omega
        rwa [h3] at h2)
      (by
        have h3 : j + (k + 1) = j + 1 + k := by omega
        rwa [h3] at hstop)
      (by omega)]
    rw [queryTrace_succ]
    have h4 : j + 1 + k = j + (k + 1) := by omega
    rw [h4]
    simp


/-! ## Concrete oracles used in counterexamples and code-bug evaluations -/

/-- A generation oracle that always reports a wish to search. -/
def constGen : Nat → GenRequest → Option MessagesResponse :=
  fun _ _ => some { content := [ContentBlock.textBlock "Let me search the web for this."] }

/-- A search oracle returning a fixed payload. -/
def constSearch : String → String := fun _ => "search results"

/-- Driving the graph against `constGen` never reaches `END`: after any
amount of fuel the run is still mid-loop, having made one Analyzer call
per unit of fuel. -/
lemma runAux_constGen (fuel : Nat) :
    ∀ (j : Nat) (state : State) (qs : List String),
      ∃ qs2, runAux constGen constSearch fuel j state qs =
        .outOfFuel (j + fuel) qs2 := by
  induction fuel with
  | zero => exact fun j state qs => ⟨qs, rfl⟩
  | succ fuel ih =>
    intro j state qs
    have hc : pyContains (pyLower (responseText constGen state.article j)) "search" = true := by
      have e : responseText constGen state.article j = "Let me search the web for this." := rfl
      rw [e]
      decide
    rw [runAux_continue constGen constSearch fuel j state qs hc]
    obtain ⟨qs2, h2⟩ := ih (j + 1)
      { messages :=
          [Message.function (constSearch (responseText constGen state.article j)) "TavilySearch"]
        article := state.article }
      (qs ++ [responseText constGen state.article j])
    refine ⟨qs2, ?_⟩
    rw [h2]
    congr 1
    omega

/-- If a bounded run of the driver ends in `done`, the final state holds a
single generated message and the article of the starting state. -/
lemma runAux_done_messages (gen : Nat → GenRequest → Option MessagesResponse)
    (search : String → String) :
    ∀ (fuel j : Nat) (state : State) (qs : List String)
      (fin : State) (k2 : Nat) (qs2 : List String),
      runAux gen search fuel j state qs = .done fin k2 qs2 →
      ∃ t, fin.messages = [Message.ai t] ∧ fin.article = state.article := by
  intro fuel
  induction fuel with
  | zero =>
    intro j state qs fin k2 qs2 h
    exact absurd h (by simp [runAux])
  | succ fuel ih =>
    intro j state qs fin k2 qs2 h
    by_cases hc : pyContains (pyLower (responseText gen state.article j)) "search" = true
    · rw [runAux_continue gen search fuel j state qs hc] at h
      obtain ⟨t, ht, ha⟩ := ih (j + 1) _ _ fin k2 qs2 h
      exact ⟨t, ht, ha⟩
    · have hc2 : pyContains (pyLower (responseText gen state.article j)) "search" = false := by
        simpa using hc
      rw [runAux_end gen search fuel j state qs hc2] at h
      cases h
      exact ⟨_, rfl, rfl⟩

/-- Boolean check that the head of the log, when present, is not a tool
result. -/
def headNotToolResult : List Message → Bool
  | [] => true
  | m :: _ => !m.isToolResult



/-! ## Claims -/

/-- C1: for every generated text `t`, the Router decision is a pure
function of `t` alone, returns `"continue"` exactly when `"search"` occurs
case-insensitively in `t`, and otherwise returns `"end"`; it always
returns one of those two values (no error case on generated input). -/
theorem C1_router_decide (st st2 : State) (t : String)
    (h : st.messages.getLast? = some (Message.ai t))
    (h2 : st2.messages.getLast? = some (Message.ai t)) :
    (should_continue st = some "continue" ↔ pyContains (pyLower t) "search" = true) ∧
    should_continue st = should_continue st2 ∧
    (should_continue st = some "continue" ∨ should_continue st = some "end") := by
  have e1 : should_continue st =
      (if pyContains (pyLower t) "search" then some "continue" else some "end") := by
    simp only [should_continue, h]
  have e2 : should_continue st2 =
      (if pyContains (pyLower t) "search" then some "continue" else some "end") := by
    simp only [should_continue, h2]
  rw [e1, e2]
  by_cases hc : pyContains (pyLower t) "search" = true
  · simp [hc]
  · simp [hc]

theorem C1_router_decide_witness :
    (should_continue { messages := [Message.ai "Let me Search for that."], article := "a" } =
        some "continue" ↔
      pyContains (pyLower "Let me Search for that.") "search" = true) ∧
    should_continue { messages := [Message.ai "Let me Search for that."], article := "a" } =
      should_continue
        { messages := [Message.human "x", Message.ai "Let me Search for that."], article := "b" } ∧
    (should_continue { messages := [Message.ai "Let me Search for that."], article := "a" } =
        some "continue" ∨
      should_continue { messages := [Message.ai "Let me Search for that."], article := "a" } =
        some "end") :=
  C1_router_decide
    { messages := [Message.ai "Let me Search for that."], article := "a" }
    { messages := [Message.human "x", Message.ai "Let me Search for that."], article := "b" }
    "Let me Search for that." rfl rfl



/-- C2 counterexample: no bound on Analyzer invocations exists.  Against a
generation oracle whose every reply asks to search, the run never reaches
`END`, and for every candidate bound `n` there is a run that has already
made more than `n` Analyzer calls. -/
theorem C2_no_bound_counterexample :
    (∀ fuel : Nat, isDone (runApp constGen constSearch fuel "Some article.") = false) ∧
    ¬ ∃ n : Nat, ∀ fuel : Nat,
        agentCallsOf (runApp constGen constSearch fuel "Some article.") ≤ n := by
  have key : ∀ fuel : Nat, ∃ qs2,
      runApp constGen constSearch fuel "Some article." = .outOfFuel fuel qs2 := by
    intro fuel
    obtain ⟨qs2, h⟩ :=
      runAux_constGen fuel 0 { messages := [], article := "Some article." } []
    exact ⟨qs2, by simpa using h⟩
  constructor
  · intro fuel
    obtain ⟨qs2, h⟩ := key fuel
    rw [runApp] at h
    rw [runApp, h]
    rfl
  · rintro ⟨n, hn⟩
    have h1 := hn (n + 1)
    obtain ⟨qs2, h⟩ := key (n + 1)
    rw [runApp] at h
    rw [runApp, h] at h1
    simp only [agentCallsOf] at h1
    omega

/-- C2 (amended): the driver configures no maximum; a run terminates
exactly when some Analyzer response lacks "search".  When the first
response without "search" (case-insensitive) is the k-th one (0-indexed)
and at least k+1 rounds of fuel are available, the run reaches `END` after
exactly k+1 Analyzer invocations, logging the first k responses as search
queries. -/
theorem C2_termination_first_stop (gen : Nat → GenRequest → Option MessagesResponse)
    (search : String → String) (a : String) (k fuel : Nat)
    (hall : ∀ i, i < k → pyContains (pyLower (responseText gen a i)) "search" = true)
    (hstop : pyContains (pyLower (responseText gen a k)) "search" = false)
    (hfuel : k < fuel) :
    runApp gen search fuel a =
      .done { messages := [Message.ai (responseText gen a k)], article := a } (k + 1)
        (queryTrace gen a 0 k) := by
  have h := runAux_first_stop gen search k 0 fuel
    { messages := [], article := a } []
    (fun i hi => by simpa using hall i hi) (by simpa using hstop) hfuel
  rw [runApp, h]
  simp

def genTwoRounds : Nat → GenRequest → Option MessagesResponse := fun k _ =>
  if k = 0 then some { content := [ContentBlock.textBlock "I will search for the fees."] }
  else some { content := [ContentBlock.textBlock "The fees are confirmed."] }

theorem C2_termination_first_stop_witness :
    runApp genTwoRounds (fun q => "web results about " ++ q) 3 "Card article." =
      .done { messages := [Message.ai "The fees are confirmed."], article := "Card article." } 2
        (queryTrace genTwoRounds "Card article." 0 1) :=
  C2_termination_first_stop genTwoRounds (fun q => "web results about " ++ q)
    "Card article." 1 3
    (fun i hi => by
      have e : i = 0 := by omega
      subst e
      have e2 : responseText genTwoRounds "Card article." 0 = "I will search for the fees." := rfl
      rw [e2]
      decide)
    (by
      have e2 : responseText genTwoRounds "Card article." 1 = "The fees are confirmed." := rfl
      rw [e2]
      decide)
    (by omega)



def genB : Nat → GenRequest → Option MessagesResponse := fun k _ =>
  if k = 0 then
    some { content := [ContentBlock.textBlock "I need to search for current rates"] }
  else
    some { content := [ContentBlock.textBlock "All the product details are accurate."] }

def searchB : String → String := fun q => "Tavily results for: " ++ q

/-- C3 evaluation at the failing input: the Router does continue, the
Evidence Fetcher is called once with the first response as query, the
Analyzer runs a second time and its response is the final output --- but
the state handed to that second Analyzer invocation holds ONLY the tool
result: the first generated message was replaced, not appended to. -/
theorem C3_scenario_b_eval :
    runApp genB searchB 3 "The card earns 5 miles." =
      .done { messages := [Message.ai "All the product details are accurate."]
              article := "The card earns 5 miles." } 2
        ["I need to search for current rates"] ∧
    actionStep searchB
        (agentStep genB 0 { messages := [], article := "The card earns 5 miles." }) =
      some { messages :=
               [Message.function "Tavily results for: I need to search for current rates"
                 "TavilySearch"]
             article := "The card earns 5 miles." } := by
  constructor
  · rfl
  · rfl

def genC : Nat → GenRequest → Option MessagesResponse := fun k _ =>
  if k = 0 then
    some { content := [ContentBlock.textBlock "Please search for the latest fees"] }
  else
    some { content := [ContentBlock.textBlock "The review is complete."] }

def searchC : String → String := fun q => "results: " ++ q

/-- C4 evaluation at the failing input: a run that performed two Analyzer
calls and one Evidence Fetcher call ends with a single-message log; the
generated message present before the action step is gone after it, because
each node return replaces the `messages` channel. -/
theorem C4_messages_replaced_eval :
    (agentStep genC 0 { messages := [], article := "An article." }).messages =
      [Message.ai "Please search for the latest fees"] ∧
    actionStep searchC (agentStep genC 0 { messages := [], article := "An article." }) =
      some { messages :=
               [Message.function "results: Please search for the latest fees" "TavilySearch"]
             article := "An article." } ∧
    runApp genC searchC 3 "An article." =
      .done { messages := [Message.ai "The review is complete."]
              article := "An article." } 2
        ["Please search for the latest fees"] := by
  exact ⟨rfl, rfl, rfl⟩



/-- C5: when the generation response is falsy, has an empty content list,
or its first block carries no text attribute, the Analyzer substitutes the
fixed placeholder, and the run proceeds: the Router is applied to the
placeholder (yielding "end", since it does not contain "search") and the
run finishes normally with the placeholder as output. -/
theorem C5_placeholder_on_malformed (r : Option MessagesResponse) (a : String)
    (gen : Nat → GenRequest → Option MessagesResponse) (search : String → String)
    (hr : hasValidText r = false)
    (hg : gen 0 (buildRequest a) = r) :
    extractText r = "No valid response received." ∧
    should_continue { messages := [Message.ai (extractText r)], article := a } =
      some "end" ∧
    runApp gen search 1 a =
      .done { messages := [Message.ai "No valid response received."], article := a } 1 [] := by
  have hx : extractText r = "No valid response received." := by
    cases r with
    | none => rfl
    | some rr =>
      obtain ⟨content⟩ := rr
      cases content with
      | nil => rfl
      | cons b rest =>
        cases b with
        | textBlock t => simp [hasValidText] at hr
        | other => rfl
  have e : responseText gen a 0 = "No valid response received." := by
    rw [responseText, hg]
    exact hx
  refine ⟨hx, ?_, ?_⟩
  · rw [hx, should_continue_single_ai]
    decide
  · have h0 : pyContains (pyLower (responseText gen a 0)) "search" = false := by
      rw [e]
      decide
    have h1 := runAux_end gen search 0 0 { messages := [], article := a } [] h0
    rw [runApp]
    rw [e] at h1
    exact h1

theorem C5_placeholder_on_malformed_witness :
    extractText (some { content := [ContentBlock.other] }) = "No valid response received." ∧
    should_continue
        { messages :=
            [Message.ai (extractText (some { content := [ContentBlock.other] }))]
          article := "art" } = some "end" ∧
    runApp (fun _ _ => some { content := [ContentBlock.other] }) (fun _ => "r") 1 "art" =
      .done { messages := [Message.ai "No valid response received."], article := "art" } 1 [] :=
  C5_placeholder_on_malformed (some { content := [ContentBlock.other] }) "art"
    (fun _ _ => some { content := [ContentBlock.other] }) (fun _ => "r") rfl rfl

/-- C6: when the very first Analyzer response does not contain "search"
(case-insensitively), the run ends after exactly one Analyzer invocation
with that response as output, and the Evidence Fetcher is never invoked
(the query log is empty). -/
theorem C6_stop_after_one (gen : Nat → GenRequest → Option MessagesResponse)
    (search : String → String) (a : String) (fuel : Nat)
    (h : pyContains (pyLower (responseText gen a 0)) "search" = false)
    (hfuel : 0 < fuel) :
    runApp gen search fuel a =
      .done { messages := [Message.ai (responseText gen a 0)], article := a } 1 [] := by
  obtain ⟨f, rfl⟩ : ∃ f, fuel = f + 1 := ⟨fuel - 1, by omega⟩
  have h1 := runAux_end gen search f 0 { messages := [], article := a } [] h
  rw [runApp]
  exact h1

theorem C6_stop_after_one_witness :
    runApp (fun _ _ => some { content := [ContentBlock.textBlock "No products are mentioned."] })
        (fun _ => "r") 2 "A plain article." =
      .done { messages := [Message.ai "No products are mentioned."]
              article := "A plain article." } 1 [] :=
  C6_stop_after_one
    (fun _ _ => some { content := [ContentBlock.textBlock "No products are mentioned."] })
    (fun _ => "r") "A plain article." 2
    (by
      have e : responseText
          (fun _ _ => some { content := [ContentBlock.textBlock "No products are mentioned."] })
          "A plain article." 0 = "No products are mentioned." := rfl
      rw [e]
      decide)
    (by omega)



/-- C7: the message log of any run that reaches `END` never starts with a
tool result, and never holds two consecutive tool results. -/
theorem C7_toolresult_adjacency (gen : Nat → GenRequest → Option MessagesResponse)
    (search : String → String) (fuel : Nat) (a : String)
    (fin : State) (k : Nat) (qs : List String)
    (h : runApp gen search fuel a = .done fin k qs) :
    headNotToolResult fin.messages = true ∧
    noConsecToolResults fin.messages = true := by
  obtain ⟨t, ht, -⟩ :=
    runAux_done_messages gen search fuel 0 { messages := [], article := a } [] fin k qs h
  rw [ht]
  exact ⟨rfl, rfl⟩

theorem C7_toolresult_adjacency_witness :
    headNotToolResult
        (State.messages
          { messages := [Message.ai "Everything checks out."], article := "art" }) = true ∧
    noConsecToolResults
        (State.messages
          { messages := [Message.ai "Everything checks out."], article := "art" }) = true :=
  C7_toolresult_adjacency
    (fun _ _ => some { content := [ContentBlock.textBlock "Everything checks out."] })
    (fun _ => "r") 1 "art"
    { messages := [Message.ai "Everything checks out."], article := "art" } 1 [] rfl

/-- C8: an empty credential string makes startup halt: no clients are
constructed and no graph run (hence no remote service call) can happen. -/
theorem C8_empty_credentials_halt (secrets : Secrets)
    (gen : Nat → GenRequest → Option MessagesResponse) (search : String → String)
    (fuel : Nat) (a : String)
    (h : secrets.tavily_api_key = "" ∨ secrets.claude_api_key = "") :
    startup secrets = none ∧ processRun secrets gen search fuel a = none := by
  have hs : startup secrets = none := by
    rw [startup]
    rcases h with h | h <;> simp [h]
  exact ⟨hs, by rw [processRun, hs]; rfl⟩

theorem C8_empty_credentials_halt_witness :
    startup { tavily_api_key := "", claude_api_key := "sk-key" } = none ∧
    processRun { tavily_api_key := "", claude_api_key := "sk-key" }
        (fun _ _ => none) (fun _ => "r") 3 "art" = none :=
  C8_empty_credentials_halt { tavily_api_key := "", claude_api_key := "sk-key" }
    (fun _ _ => none) (fun _ => "r") 3 "art" (Or.inl rfl)

/-- C9: neither superstep writes the article: the agent step preserves it
unconditionally, and whenever the action step succeeds its result carries
the unchanged article. -/
theorem C9_article_unchanged (gen : Nat → GenRequest → Option MessagesResponse)
    (k : Nat) (search : String → String) (st st2 : State)
    (h : actionStep search st = some st2) :
    (agentStep gen k st).article = st.article ∧ st2.article = st.article := by
  constructor
  · rw [agentStep_eq]
  · rw [actionStep, action_node] at h
    cases hl : st.messages.getLast? with
    | none =>
      rw [hl] at h
      simp at h
    | some m =>
      rw [hl] at h
      simp only [Option.map_some'] at h
      injection h with h
      rw [← h]
      rfl

theorem C9_article_unchanged_witness :
    (agentStep (fun _ _ => none) 0
        { messages := [Message.ai "q"], article := "story" }).article = "story" ∧
    State.article
        { messages := [Message.function "r" "TavilySearch"], article := "story" } = "story" :=
  C9_article_unchanged (fun _ _ => none) 0 (fun _ => "r")
    { messages := [Message.ai "q"], article := "story" }
    { messages := [Message.function "r" "TavilySearch"], article := "story" } rfl

/-- C10: the request the Analyzer issues, and everything it does to the
state, depend only on the article: two states with equal articles yield
the identical request, the identical node return, and the identical
post-step state, for any reply behaviour of the service. -/
theorem C10_agent_ignores_messages (gen : Nat → GenRequest → Option MessagesResponse)
    (k : Nat) (s1 s2 : State)
    (h : s1.article = s2.article) :
    buildRequest s1.article = buildRequest s2.article ∧
    agent_node (gen k) s1 = agent_node (gen k) s2 ∧
    agentStep gen k s1 = agentStep gen k s2 := by
  refine ⟨by rw [h], ?_, ?_⟩
  · rw [agent_node, agent_node, h]
  · rw [agentStep_eq, agentStep_eq, h]

theorem C10_agent_ignores_messages_witness :
    buildRequest
        (State.article { messages := ([] : List Message), article := "art" }) =
      buildRequest
        (State.article { messages := [Message.human "hello"], article := "art" }) ∧
    agent_node ((fun _ _ => (none : Option MessagesResponse)) 0)
        { messages := [], article := "art" } =
      agent_node ((fun _ _ => (none : Option MessagesResponse)) 0)
        { messages := [Message.human "hello"], article := "art" } ∧
    agentStep (fun _ _ => (none : Option MessagesResponse)) 0
        { messages := [], article := "art" } =
      agentStep (fun _ _ => (none : Option MessagesResponse)) 0
        { messages := [Message.human "hello"], article := "art" } :=
  C10_agent_ignores_messages (fun _ _ => none) 0
    { messages := [], article := "art" }
    { messages := [Message.human "hello"], article := "art" } rfl

end ContentValidator
